import Mathlib

/-!
Shallow embedding of `pyflp/project.py` (the `Project` model of PyFLP) and
proofs about the properties it exposes: the channel-rack boundary filter, the
licensee cipher, the tempo/ppq/version/channel-count accessors and their error
behaviour.

Strings are modelled as lists of character codes (`List Nat`), numeric payloads
as `ℤ`, Python's true division and the tempo arithmetic over `ℚ`.  Python
exceptions are modelled with `Except PyErr`.
-/

namespace PyFLP

/-- Exceptions that the modelled code can raise.  `expectedValue`,
`invalidValue` and `propertyCannotBeSet` come from `pyflp.exceptions`; the
rest are Python built-ins. -/
inductive PyErr where
  | nameError
  | typeError
  | keyError
  | valueError
  | unicodeDecodeError
  | propertyCannotBeSet
  | expectedValue
  | invalidValue
deriving DecidableEq, Repr

/-- Payload of one event: an integer (BYTE/WORD/DWORD kinds), a string
(TEXT kinds, kept as character codes), or the two-float timestamp struct
(`TimestampStruct`, project.py lines 69-70: `created_on` and `time_spent`
in days, modelled as rationals). -/
inductive EValue where
  | int (n : ℤ)
  | str (s : List Nat)
  | timestamp (createdOn timeSpent : ℚ)
deriving DecidableEq, Repr

/-- One event of the stream: a numeric identifier plus a payload. -/
structure Event where
  id : Nat
  value : EValue
deriving DecidableEq, Repr

/-- State of a `Project` (a `MultiEventModel`): the ordered event tuple
(`self._events_tuple`) together with the keyword state `self._kw`
(`channel_count`, `ppq`, `format`; `_ProjectKW`, project.py lines 145-148).
The id-keyed mapping `self._events` is derived from the event list below. -/
structure Project where
  events : List Event
  channel_count : ℤ
  ppq : ℤ
  format : ℤ
deriving DecidableEq, Repr

/-! Identifier-range bases, from the spec's identifier-range table (§3): the
`_base` module holding them is not part of the sources under review, but the
spec fixes `WORD = 64`, `DWORD = 128`, `TEXT = 192`, `DATA = 208`. -/

def WORD : Nat := 64
def DWORD : Nat := 128
def TEXT : Nat := 192
def DATA : Nat := 208

/-! Members of `ProjectID` (project.py lines 121-142) used by the claims. -/

def tempoCoarseId : Nat := WORD + 2
def tempoFineId : Nat := WORD + 29
def tempoId : Nat := DWORD + 28
def flBuildId : Nat := DWORD + 31
def flVersionId : Nat := TEXT + 7
def licenseeId : Nat := TEXT + 8
def dataPathId : Nat := TEXT + 10
def timestampId : Nat := DATA + 29

/-- Modelled from the spec: the Insert-Flags identifier (`InsertID.Flags`)
lives in `pyflp.mixer`, which is not among the sources under review; the spec
only uses it as the channel-rack/mixer boundary marker.  Its concrete numeric
value is immaterial to the claims — any identifier distinct from the
`ProjectID` members above serves — so a fixed representative is chosen. -/
def insertFlagsId : Nat := DATA + 26

/-- Modelled from the spec: a representative Channel-domain identifier
(`ChannelID` lives in `pyflp.channel`, not among the sources under review).
Only its distinctness from `insertFlagsId` matters for the claims. -/
def channelDomainId : Nat := 0

/-- Modelled from the spec: a representative Insert-domain identifier other
than the Flags marker. -/
def insertOtherId : Nat := DATA + 27

/-- First event of the list carrying the given id — `self._events[id][0]`
viewed through the id-keyed mapping `self._events`, which (modelled from the
spec, §4.2 grouped lookup) maps an identifier to the sub-list of events
carrying it, preserving order; an identifier with no event is absent from the
mapping. -/
def findById : List Event → Nat → Option Event
  | [], _ => none
  | e :: rest, i => if e.id = i then some e else findById rest i

/-- Replace the payload of the first event carrying the given id (Python
mutates `self._events[id][0].value` in place; the event object is shared with
`self._events_tuple`). -/
def setFirstById : List Event → Nat → EValue → List Event
  | [], _, _ => []
  | e :: rest, i, v =>
    if e.id = i then { e with value := v } :: rest else e :: setFirstById rest i v

/-- Payload of the first event with the given id, if any. -/
def Project.firstValue (p : Project) (i : Nat) : Option EValue :=
  (findById p.events i).map Event.value

/-- Test `id in self._events`. -/
def Project.present (p : Project) (i : Nat) : Bool :=
  (findById p.events i).isSome

/-- Write `self._events[id][0].value = v`. -/
def Project.setFirst (p : Project) (i : Nat) (v : EValue) : Project :=
  { p with events := setFirstById p.events i v }

/-- The guarded write `if id in self._events: self._events[id][0].value = v`
that the tempo and version setters perform for each of their identifiers. -/
def Project.writeIfPresent (p : Project) (i : Nat) (v : EValue) : Project :=
  if p.present i then p.setFirst i v else p

/-! ## Licensee cipher (project.py lines 259-303) -/

/-- ASCII alphanumeric character codes (digits, upper- and lower-case
letters). -/
def isAlnumCode (c : Nat) : Bool :=
  (48 ≤ c && c ≤ 57) || (65 ≤ c && c ≤ 90) || (97 ≤ c && c ≤ 122)

/-- Decimal digit codes of a natural number, most significant first (the
digits of Python's `str(n)` for `n ≥ 0`). -/
def natDigitCodes (n : Nat) : List Nat :=
  (Nat.toDigits 10 n).map Char.toNat

/-- Character codes of Python's `str(n)` for an integer `n`: decimal digits,
preceded by a minus sign (code 45) when negative. -/
def pyStrOfInt (n : ℤ) : List Nat :=
  if n < 0 then 45 :: natDigitCodes n.natAbs else natDigitCodes n.toNat

/-- Python's `str.isalnum` on a string of character codes: nonempty and all
alphanumeric.  The strings this model applies it to are outputs of `str(int)`
(ASCII digits and the minus sign only), on which the ASCII classification
coincides with Python's Unicode one. -/
def pyStrIsAlnum (s : List Nat) : Bool :=
  !s.isEmpty && s.all isAlnumCode

/-- Python's `bytearray.append`: accepts `0 ≤ c ≤ 255`, raises `ValueError`
otherwise. -/
def byteAppend (acc : List Nat) (c : ℤ) : Except PyErr (List Nat) :=
  if 0 ≤ c ∧ c < 256 then .ok (acc ++ [c.toNat]) else .error .valueError

/-- Python's `bytes.decode("ascii")`: accepts bytes below 128, raises
`UnicodeDecodeError` otherwise. -/
def asciiDecode (buf : List Nat) : Except PyErr (List Nat) :=
  if buf.all (fun b => b < 128) then .ok buf else .error .unicodeDecodeError

/-- Loop of the `licensee` getter (project.py lines 276-285): for the stored
character code `c` at position `idx`, compute `c1 = ord(char) - 26 + idx` and
`c2 = ord(char) + 49 + idx`; append `c1` to the buffer if `str(c1).isalnum()`,
else append `c2` if `str(c2).isalnum()`.  Note the source tests
`str(...)` — the decimal representation of the integer — not `chr(...)`. -/
def decodeChars : List Nat → Nat → List Nat → Except PyErr (List Nat)
  | [], _, acc => .ok acc
  | c :: rest, idx, acc =>
    let c1 : ℤ := (c : ℤ) - 26 + idx
    let c2 : ℤ := (c : ℤ) + 49 + idx
    if pyStrIsAlnum (pyStrOfInt c1) then
      match byteAppend acc c1 with
      | .error err => .error err
      | .ok acc2 => decodeChars rest (idx + 1) acc2
    else if pyStrIsAlnum (pyStrOfInt c2) then
      match byteAppend acc c2 with
      | .error err => .error err
      | .ok acc2 => decodeChars rest (idx + 1) acc2
    else decodeChars rest (idx + 1) acc

/-- Body of the `licensee` getter: run the per-character loop on the stored
string, then `licensee.decode("ascii")`. -/
def decodeLicensee (s : List Nat) : Except PyErr (List Nat) :=
  match decodeChars s 0 [] with
  | .error err => .error err
  | .ok buf => asciiDecode buf

/-- Loop of the `licensee` setter (project.py lines 294-302): for the value's
character code `c` at position `idx`, compute `c1 = ord(char) + 26 - idx` and
`c2 = ord(char) - 49 - idx` and append the first of the two lying in
`1..=127`; neither in range appends nothing.  Every appended byte is below
128, so the final `decode("ascii")` always succeeds. -/
def encodeChars : List Nat → Nat → List Nat
  | [], _ => []
  | c :: rest, idx =>
    let c1 : ℤ := (c : ℤ) + 26 - idx
    let c2 : ℤ := (c : ℤ) - 49 - idx
    (if 0 < c1 ∧ c1 ≤ 127 then [c1.toNat]
     else if 0 < c2 ∧ c2 ≤ 127 then [c2.toNat]
     else []) ++ encodeChars rest (idx + 1)

/-- The `licensee` getter (project.py lines 259-286): `None` when the
Licensee event is absent (`self._events.get` miss), otherwise the decoded
stored string. -/
def Project.licensee (p : Project) : Except PyErr (Option (List Nat)) :=
  match p.firstValue licenseeId with
  | none => .ok none
  | some (.str s) =>
    match decodeLicensee s with
    | .error err => .error err
    | .ok out => .ok (some out)
  | some _ => .error .typeError

/-- The `licensee` setter (project.py lines 288-303): `PropertyCannotBeSet`
when the Licensee event is absent, otherwise store the encoded value. -/
def Project.setLicensee (p : Project) (value : List Nat) :
    Except PyErr Unit × Project :=
  if p.present licenseeId then
    (.ok (), p.setFirst licenseeId (.str (encodeChars value 0)))
  else (.error .propertyCannotBeSet, p)

/-- Character codes of a list of character literals (convenience for concrete
strings). -/
def codes (l : List Char) : List Nat :=
  l.map Char.toNat

/-! ## Tempo (project.py lines 354-381) -/

/-- Python's `int()` applied to a number: truncation toward zero. -/
def pyInt (q : ℚ) : ℤ :=
  if 0 ≤ q then ⌊q⌋ else ⌈q⌉

/-- The `tempo` getter (project.py lines 354-369).  If the unified Tempo
event is present its raw value is divided by 1000.  Otherwise the source runs
`tempo = None`, then `tempo = coarse` if the coarse event is present, then
`tempo += fine / 1000` if the fine event is present: when only the fine event
is present the augmented assignment adds a float to `None` and raises
`TypeError`.  A payload whose kind does not match its identifier would also
raise `TypeError` at the arithmetic. -/
def Project.tempo (p : Project) : Except PyErr (Option ℚ) :=
  match p.firstValue tempoId with
  | some (.int n) => .ok (some ((n : ℚ) / 1000))
  | some _ => .error .typeError
  | none =>
    match p.firstValue tempoCoarseId with
    | some (.int c) =>
      match p.firstValue tempoFineId with
      | some (.int f) => .ok (some ((c : ℚ) + (f : ℚ) / 1000))
      | some _ => .error .typeError
      | none => .ok (some (c : ℚ))
    | some _ => .error .typeError
    | none =>
      match p.firstValue tempoFineId with
      | some _ => .error .typeError
      | none => .ok none

/-- The `tempo` setter (project.py lines 371-381): writes `int(value * 1000)`
to the unified Tempo event when present, then
`int((value - math.floor(value)) * 1000)` to the fine event when present,
then `math.floor(value)` to the coarse event when present. -/
def Project.setTempo (p : Project) (value : ℚ) : Project :=
  ((p.writeIfPresent tempoId (.int (pyInt (value * 1000)))).writeIfPresent
      tempoFineId (.int (pyInt ((value - ⌊value⌋) * 1000)))).writeIfPresent
    tempoCoarseId (.int ⌊value⌋)

/-! ## PPQ and channel count (project.py lines 177-192 and 319-344) -/

/-- Allowed pulses-per-quarter values (project.py line 65). -/
def VALID_PPQS : List ℤ := [24, 48, 72, 96, 120, 144, 168, 192, 384, 768, 960]

/-- The `ppq` setter (project.py lines 340-344): `ExpectedValue` when the
value is not in `VALID_PPQS`, otherwise store it in `self._kw`. -/
def Project.setPpq (p : Project) (value : ℤ) : Except PyErr Unit × Project :=
  if value ∈ VALID_PPQS then (.ok (), { p with ppq := value })
  else (.error .expectedValue, p)

/-- The `channel_count` setter (project.py lines 188-192): `InvalidValue`
when the value is negative, otherwise store it in `self._kw`. -/
def Project.setChannelCount (p : Project) (value : ℤ) :
    Except PyErr Unit × Project :=
  if value < 0 then (.error .invalidValue, p)
  else (.ok (), { p with channel_count := value })

/-! ## Version (project.py lines 395-442) -/

/-- The version tuple `FLVersion` (a named tuple from `_base`, modelled from
the spec: `major.minor.patch` with an optional `build`). -/
structure FLVersion where
  major : ℤ
  minor : ℤ
  patch : ℤ
  build : Option ℤ
deriving DecidableEq, Repr

/-- Python's `str.split(".")` on a string of character codes (46 is the
code of the dot). -/
def splitDot : List Nat → List (List Nat)
  | [] => [[]]
  | c :: rest =>
    if c = 46 then [] :: splitDot rest
    else
      match splitDot rest with
      | h :: t => (c :: h) :: t
      | [] => [[c]]

/-- Decimal value of a digit-code string, `none` when empty or containing a
non-digit. -/
def parseDigits : List Nat → Option Nat
  | [] => none
  | [c] => if 48 ≤ c ∧ c ≤ 57 then some (c - 48) else none
  | c :: rest =>
    if 48 ≤ c ∧ c ≤ 57 then
      match parseDigits rest with
      | some n => some ((c - 48) * 10 ^ rest.length + n)
      | none => none
    else none

/-- Python's `int()` on a string of character codes: an optional minus sign
followed by decimal digits, `ValueError` otherwise.  (Python additionally
accepts surrounding whitespace, a plus sign and digit-group underscores;
no string this model feeds to `int()` uses those forms.) -/
def pyParseInt (s : List Nat) : Except PyErr ℤ :=
  match s with
  | 45 :: rest =>
    match parseDigits rest with
    | some n => .ok (-(n : ℤ))
    | none => .error .valueError
  | _ =>
    match parseDigits s with
    | some n => .ok (n : ℤ)
    | none => .error .valueError

/-- Python's `".".join(...)` on strings of character codes. -/
def joinDot : List (List Nat) → List Nat
  | [] => []
  | [s] => s
  | s :: rest => s ++ 46 :: joinDot rest

/-- The dot-joined string `".".join(map(str, parts))` of a version tuple. -/
def versionString (parts : List ℤ) : List Nat :=
  joinDot (parts.map pyStrOfInt)

/-- The `version` getter (project.py lines 395-420):
`self._events[ProjectID.FLVersion]` raises `KeyError` when the FLVersion
event is absent (the id-keyed mapping holds only identifiers that occur in
the stream); otherwise the stored string is split on dots, each part parsed
with `int()`, and the parts passed to `FLVersion(...)` — a part count other
than 3 or 4 raises `TypeError` at that call. -/
def Project.version (p : Project) : Except PyErr FLVersion :=
  match p.firstValue flVersionId with
  | none => .error .keyError
  | some (.str s) =>
    match (splitDot s).mapM pyParseInt with
    | .error err => .error err
    | .ok [a, b, c] => .ok ⟨a, b, c, none⟩
    | .ok [a, b, c, d] => .ok ⟨a, b, c, some d⟩
    | .ok _ => .error .typeError
  | some _ => .error .typeError

/-- The `version` setter (project.py lines 422-442), on a tuple of integers
(`parts = value`; an `FLVersion` or string argument is first normalised to
the same list of parts): `PropertyCannotBeSet` when the FLVersion event is
absent; `ExpectedValue` when the tuple has fewer than 3 or more than 4
components, before anything is written; otherwise the dot-joined string is
written to the FLVersion event and, for a 4-component tuple, `parts[3]` is
also written to the FLBuild event when that event is present. -/
def Project.setVersion (p : Project) (parts : List ℤ) :
    Except PyErr Unit × Project :=
  if p.present flVersionId then
    match parts with
    | [a, b, c] => (.ok (), p.setFirst flVersionId (.str (versionString [a, b, c])))
    | [a, b, c, d] =>
      (.ok (), (p.setFirst flVersionId
        (.str (versionString [a, b, c, d]))).writeIfPresent flBuildId (.int d))
    | _ => (.error .expectedValue, p)
  else (.error .propertyCannotBeSet, p)

/-! ## Timestamp and data path (project.py lines 218-248) -/

/-- The `created_on` getter (project.py lines 218-227): `None` when the
Timestamp event is absent, otherwise
`DELPHI_EPOCH + timedelta(days=event["created_on"])`, modelled as the day
offset from the Delphi epoch. -/
def Project.created_on (p : Project) : Except PyErr (Option ℚ) :=
  match p.firstValue timestampId with
  | none => .ok none
  | some (.timestamp c _) => .ok (some c)
  | some _ => .error .typeError

/-- The `data_path` getter (project.py lines 232-237): `None` when the
DataPath event is absent, otherwise `pathlib.Path(event.value)`, modelled as
the stored string. -/
def Project.data_path (p : Project) : Except PyErr (Option (List Nat)) :=
  match p.firstValue dataPathId with
  | none => .ok none
  | some (.str s) => .ok (some s)
  | some _ => .error .typeError

/-! ## Channel-rack view (project.py lines 194-207)

The loop body of `Project.channels` evaluates the tuple
`(ChannelID, DisplayGroupID, PluginID, RackID)` (line 202).  Line 58 brings
in only `ChannelID`, `Rack` and `RackID` from the channel module;
`DisplayGroupID` is bound nowhere in project.py, so evaluating that name
raises `NameError` before any membership test runs. -/

/-- Whether `DisplayGroupID` is bound in the module namespace of project.py:
it is not — line 58 reads `from .channel import ChannelID, Rack, RackID`, and
no other statement binds the name. -/
def displayGroupIdBound : Bool := false

/-- Evaluating `(ChannelID, DisplayGroupID, PluginID, RackID)` in the loop
body: were every name bound, this would yield the membership test of the
union of the four enumerations; the unbound `DisplayGroupID` makes it raise
`NameError` instead. -/
def channelsEnums : Except PyErr (Nat → Bool) :=
  if displayGroupIdBound then .ok (fun _ => false) else .error .nameError

/-- Loop of the `channels` getter (project.py lines 197-205): walk the event
tuple, stop at the first event whose id is `InsertID.Flags`, and otherwise
collect the events matched by the enumeration tuple — whose evaluation raises
`NameError` (see `channelsEnums`). -/
def channelsLoop : List Event → List Event → Except PyErr (List Event)
  | [], acc => .ok acc
  | e :: rest, acc =>
    if e.id = insertFlagsId then .ok acc
    else
      match channelsEnums with
      | .error err => .error err
      | .ok isMember =>
        channelsLoop rest (if isMember e.id then acc ++ [e] else acc)

/-- The `channels` getter (project.py lines 194-207): the events the Rack
view is built over (the Rack constructor itself lives in the channel
module). -/
def Project.channels (p : Project) : Except PyErr (List Event) :=
  channelsLoop p.events []

/-! ## Concrete projects used as witnesses and counterexamples -/

/-- Project with no events at all. -/
def emptyProj : Project := ⟨[], 1, 96, 0⟩

/-- Project holding only a unified Tempo event with raw value 140000. -/
def tempoUnifiedProj : Project := ⟨[⟨tempoId, .int 140000⟩], 1, 96, 0⟩

/-- Project holding both legacy tempo events, coarse 140 and fine 500. -/
def tempoLegacyProj : Project :=
  ⟨[⟨tempoCoarseId, .int 140⟩, ⟨tempoFineId, .int 500⟩], 1, 96, 0⟩

/-- Project holding only the legacy coarse tempo event. -/
def tempoCoarseOnlyProj : Project := ⟨[⟨tempoCoarseId, .int 140⟩], 1, 96, 0⟩

/-- Project holding only the legacy fine tempo event. -/
def tempoFineOnlyProj : Project := ⟨[⟨tempoFineId, .int 500⟩], 1, 96, 0⟩

/-- Project holding the unified and both legacy tempo events. -/
def tempoBothProj : Project :=
  ⟨[⟨tempoId, .int 140000⟩, ⟨tempoFineId, .int 0⟩, ⟨tempoCoarseId, .int 140⟩],
    1, 96, 0⟩

/-- Project holding a Licensee event (initially an empty stored string). -/
def licenseeProj : Project := ⟨[⟨licenseeId, .str []⟩], 1, 96, 0⟩

/-- Project holding an FLVersion event storing 20.8.3.2567 plus an FLBuild
event. -/
def versionProj : Project :=
  ⟨[⟨flVersionId, .str (codes ['2', '0', '.', '8', '.', '3', '.', '2', '5', '6', '7'])⟩,
    ⟨flBuildId, .int 2567⟩], 1, 96, 0⟩

/-- Project whose stream is one Channel-domain event, then the first
Insert-Flags event, then one further Insert event. -/
def channelBoundaryProj : Project :=
  ⟨[⟨channelDomainId, .int 1⟩, ⟨insertFlagsId, .int 0⟩, ⟨insertOtherId, .int 0⟩],
    1, 96, 0⟩

/-- Decode loop as claim C3 states it: append `c - 26 + idx` exactly when it
is an ASCII alphanumeric character code, else `c + 49 + idx` exactly when
that is one, else drop the character.  Stated from the spec's words for
comparison with `decodeChars`, which tests `str(candidate).isalnum()` — the
decimal representation of the integer — instead of the character. -/
def decodeCharsClaim : List Nat → Nat → List Nat
  | [], _ => []
  | c :: rest, idx =>
    let c1 : ℤ := (c : ℤ) - 26 + idx
    let c2 : ℤ := (c : ℤ) + 49 + idx
    (if 0 ≤ c1 ∧ isAlnumCode c1.toNat then [c1.toNat]
     else if 0 ≤ c2 ∧ isAlnumCode c2.toNat then [c2.toNat]
     else []) ++ decodeCharsClaim rest (idx + 1)

/-! ## Lemmas about the event mapping and in-place writes -/

theorem findById_setFirstById_self (l : List Event) (i : Nat) (v : EValue) :
    findById (setFirstById l i v) i
      = (findById l i).map (fun e => { e with value := v }) := by
  induction l with
  | nil => rfl
  | cons e rest ih =>
    by_cases h : e.id = i
    · simp [findById, setFirstById, h]
    · simp [findById, setFirstById, h, ih]

theorem findById_setFirstById_ne (l : List Event) {i j : Nat} (h : j ≠ i)
    (v : EValue) :
    findById (setFirstById l i v) j = findById l j := by
  induction l with
  | nil => rfl
  | cons e rest ih =>
    have hij : ¬i = j := fun hh => h hh.symm
    by_cases he : e.id = i
    · simp [findById, setFirstById, he, hij]
    · by_cases hej : e.id = j <;> simp [findById, setFirstById, he, hej, h, hij, ih]

theorem Project.firstValue_setFirst_self (p : Project) (i : Nat) (v : EValue) :
    (p.setFirst i v).firstValue i = (p.firstValue i).map (fun _ => v) := by
  unfold Project.firstValue Project.setFirst
  rw [findById_setFirstById_self]
  cases findById p.events i <;> rfl

theorem Project.firstValue_setFirst_ne (p : Project) {i j : Nat} (h : j ≠ i)
    (v : EValue) :
    (p.setFirst i v).firstValue j = p.firstValue j := by
  unfold Project.firstValue Project.setFirst
  rw [findById_setFirstById_ne _ h]

theorem Project.present_setFirst (p : Project) (i : Nat) (v : EValue) (j : Nat) :
    (p.setFirst i v).present j = p.present j := by
  unfold Project.present Project.setFirst
  by_cases h : j = i
  · subst h
    rw [findById_setFirstById_self]
    cases findById p.events j <;> rfl
  · rw [findById_setFirstById_ne _ h]

theorem Project.present_true_iff (p : Project) (i : Nat) :
    p.present i = true ↔ ∃ v, p.firstValue i = some v := by
  unfold Project.present Project.firstValue
  cases findById p.events i <;> simp

theorem Project.present_writeIfPresent (p : Project) (i : Nat) (v : EValue)
    (j : Nat) :
    (p.writeIfPresent i v).present j = p.present j := by
  unfold Project.writeIfPresent
  by_cases h : p.present i = true <;> simp [h, Project.present_setFirst]

theorem Project.firstValue_writeIfPresent_self (p : Project) (i : Nat)
    (v : EValue) (h : p.present i = true) :
    (p.writeIfPresent i v).firstValue i = some v := by
  obtain ⟨w, hw⟩ := (p.present_true_iff i).mp h
  unfold Project.writeIfPresent
  rw [if_pos h, Project.firstValue_setFirst_self, hw]
  rfl

theorem Project.firstValue_writeIfPresent_ne (p : Project) {i j : Nat}
    (h : j ≠ i) (v : EValue) :
    (p.writeIfPresent i v).firstValue j = p.firstValue j := by
  unfold Project.writeIfPresent
  by_cases hp : p.present i = true <;>
    simp [hp, Project.firstValue_setFirst_ne _ h]

theorem setVersion_badLength_present (p : Project) (parts : List ℤ)
    (hp : p.present flVersionId = true)
    (hlen : parts.length < 3 ∨ 4 < parts.length) :
    p.setVersion parts = (.error .expectedValue, p) := by
  unfold Project.setVersion
  rw [if_pos hp]
  rcases parts with _ | ⟨a, _ | ⟨b, _ | ⟨c, _ | ⟨d, _ | ⟨e, rest⟩⟩⟩⟩⟩
  · rfl
  · rfl
  · rfl
  · simp at hlen
  · simp at hlen
  · rfl

theorem setVersion_absent (p : Project) (parts : List ℤ)
    (hp : ¬p.present flVersionId = true) :
    p.setVersion parts = (.error .propertyCannotBeSet, p) := by
  unfold Project.setVersion
  rw [if_neg hp]

/-! ## Claims -/

/-- Claim C1 (code bug): on a stream of a Channel-domain event, then the
first Insert-Flags event, then a further Insert event, reading `channels`
does not return the Channel Rack view over the pre-boundary events: as soon
as the loop examines an event that is not the boundary marker, the reference
to the unimported name `DisplayGroupID` (project.py line 202, versus the
imports at line 58) raises `NameError`. -/
theorem channels_boundary_raises_nameerror :
    channelBoundaryProj.channels = .error .nameError := by rfl

/-- Claim C2 (code bug): the licensee round-trip fails at the one-character
ASCII alphanumeric name z.  The setter encodes z (code 122) as I (code 73);
the getter computes candidate1 = 73 - 26 + 0 = 47 and tests
`str(47).isalnum()` — true of the decimal string of every nonnegative
integer — so it appends the non-alphanumeric code 47 and the round-trip
returns the slash (code 47), not z. -/
theorem licensee_roundtrip_fails_at_z :
    (licenseeProj.setLicensee (codes ['z'])).1 = .ok () ∧
    (licenseeProj.setLicensee (codes ['z'])).2.licensee
      = .ok (some (codes ['/'])) ∧
    codes ['/'] ≠ codes ['z'] :=
  ⟨rfl, rfl, by decide⟩

/-- Claim C3 (code bug): on the stored string I, the getter's loop appends
candidate1 = 47, although 47 is not an ASCII alphanumeric code — the source
tests `str(candidate1).isalnum()` rather than the character itself.  Under
the claimed rule (candidate1 exactly when it is an alphanumeric code, else
candidate2) the output would be z (code 122 = 73 + 49 + 0). -/
theorem licensee_decode_appends_nonalnum_code :
    decodeLicensee (codes ['I']) = .ok (codes ['/']) ∧
    isAlnumCode 47 = false ∧
    decodeCharsClaim (codes ['I']) 0 = codes ['z'] ∧
    codes ['/'] ≠ codes ['z'] :=
  ⟨rfl, rfl, rfl, by decide⟩

/-- Claim C4 (confirmed): with the unified Tempo event present and holding
raw value n, `tempo` reads as n / 1000 (so 140000 reads as 140.0); with the
unified event absent and the legacy events holding coarse 140 and fine 500,
`tempo` reads as 140.5. -/
theorem tempo_read_unified_and_legacy (p : Project) :
    (∀ n : ℤ, p.firstValue tempoId = some (.int n) →
      p.tempo = .ok (some ((n : ℚ) / 1000))) ∧
    (p.firstValue tempoId = none →
      p.firstValue tempoCoarseId = some (.int 140) →
      p.firstValue tempoFineId = some (.int 500) →
      p.tempo = .ok (some (281 / 2))) := by
  constructor
  · intro n h
    simp [Project.tempo, h]
  · intro h1 h2 h3
    simp [Project.tempo, h1, h2, h3]
    norm_num

/-- Witness for C4 at the two concrete projects of the claim. -/
theorem tempo_read_unified_and_legacy_witness :
    tempoUnifiedProj.tempo = .ok (some 140) ∧
    tempoLegacyProj.tempo = .ok (some (281 / 2)) := by
  constructor
  · have h := (tempo_read_unified_and_legacy tempoUnifiedProj).1 140000 rfl
    rw [h]
    norm_num
  · exact (tempo_read_unified_and_legacy tempoLegacyProj).2 rfl rfl rfl

/-- Claim C5 counterexample: with the unified Tempo event absent and only
the legacy fine event present, reading `tempo` raises `TypeError` — the
source initialises `tempo = None` and then runs `tempo += fine / 1000`. -/
theorem tempo_fine_only_raises_typeerror :
    tempoFineOnlyProj.tempo = .error .typeError ∧
    tempoFineOnlyProj.firstValue tempoId = none :=
  ⟨rfl, rfl⟩

/-- Claim C5 amended: with the unified Tempo event absent, reading `tempo`
does not raise when the fine legacy event is absent or the coarse legacy
event is present (neither, coarse only, or both present); only the fine-only
subset raises. -/
theorem tempo_legacy_subsets_no_error (p : Project)
    (h : p.firstValue tempoId = none) :
    (p.firstValue tempoCoarseId = none → p.firstValue tempoFineId = none →
      p.tempo = .ok none) ∧
    (∀ c : ℤ, p.firstValue tempoCoarseId = some (.int c) →
      p.firstValue tempoFineId = none → p.tempo = .ok (some (c : ℚ))) ∧
    (∀ c f : ℤ, p.firstValue tempoCoarseId = some (.int c) →
      p.firstValue tempoFineId = some (.int f) →
      p.tempo = .ok (some ((c : ℚ) + (f : ℚ) / 1000))) := by
  refine ⟨?_, ?_, ?_⟩
  · intro hc hf
    simp [Project.tempo, h, hc, hf]
  · intro c hc hf
    simp [Project.tempo, h, hc, hf]
  · intro c f hc hf
    simp [Project.tempo, h, hc, hf]

/-- Witness for the amended C5 on the three non-raising subsets. -/
theorem tempo_legacy_subsets_no_error_witness :
    emptyProj.tempo = .ok none ∧
    tempoCoarseOnlyProj.tempo = .ok (some 140) ∧
    tempoLegacyProj.tempo = .ok (some (281 / 2)) := by
  refine ⟨(tempo_legacy_subsets_no_error emptyProj rfl).1 rfl rfl, ?_, ?_⟩
  · have h := (tempo_legacy_subsets_no_error tempoCoarseOnlyProj rfl).2.1 140 rfl rfl
    rw [h]
    norm_num
  · have h :=
      (tempo_legacy_subsets_no_error tempoLegacyProj rfl).2.2 140 500 rfl rfl
    rw [h]
    norm_num

/-- Claim C6 counterexample: with the unified Tempo event present, setting
`tempo` to 100.0007 writes `int(100000.7) = 100000` — truncation, as the
source's `int(value * 1000)` does — while the claim's `round(100000.7)` is
100001. -/
theorem tempo_set_truncates_not_rounds :
    (tempoUnifiedProj.setTempo (1000007 / 10000)).firstValue tempoId
      = some (.int 100000) ∧
    round ((1000007 : ℚ) / 10000 * 1000) = 100001 := by
  constructor
  · have hv : pyInt ((1000007 : ℚ) / 10000 * 1000) = 100000 := by
      unfold pyInt
      rw [if_pos (by norm_num)]
      norm_num
    unfold Project.setTempo
    rw [Project.firstValue_writeIfPresent_ne _ (by decide),
      Project.firstValue_writeIfPresent_ne _ (by decide),
      Project.firstValue_writeIfPresent_self _ _ _
        (show tempoUnifiedProj.present tempoId = true from rfl), hv]
  · norm_num [round_eq]

/-- Claim C6 amended: setting `tempo` to v writes `int(v * 1000)` (truncation
toward zero) to the unified Tempo event when present, `int((v - ⌊v⌋) * 1000)`
to the fine legacy event when present, and `⌊v⌋` to the coarse legacy event
when present — all in the same call. -/
theorem tempo_set_writes_truncated (p : Project) (v : ℚ) :
    (p.present tempoId = true →
      (p.setTempo v).firstValue tempoId = some (.int (pyInt (v * 1000)))) ∧
    (p.present tempoFineId = true →
      (p.setTempo v).firstValue tempoFineId
        = some (.int (pyInt ((v - ⌊v⌋) * 1000)))) ∧
    (p.present tempoCoarseId = true →
      (p.setTempo v).firstValue tempoCoarseId = some (.int ⌊v⌋)) := by
  refine ⟨?_, ?_, ?_⟩
  · intro h
    unfold Project.setTempo
    rw [Project.firstValue_writeIfPresent_ne _ (by decide),
      Project.firstValue_writeIfPresent_ne _ (by decide),
      Project.firstValue_writeIfPresent_self _ _ _ h]
  · intro h
    unfold Project.setTempo
    rw [Project.firstValue_writeIfPresent_ne _ (by decide),
      Project.firstValue_writeIfPresent_self _ _ _
        (by rw [Project.present_writeIfPresent]; exact h)]
  · intro h
    unfold Project.setTempo
    rw [Project.firstValue_writeIfPresent_self _ _ _
      (by rw [Project.present_writeIfPresent, Project.present_writeIfPresent]
          exact h)]

/-- Witness for the amended C6: setting 140.5 on a project holding all three
tempo events writes 140500 (unified), 500 (fine) and 140 (coarse). -/
theorem tempo_set_writes_truncated_witness :
    (tempoBothProj.setTempo (281 / 2)).firstValue tempoId
      = some (.int 140500) ∧
    (tempoBothProj.setTempo (281 / 2)).firstValue tempoFineId
      = some (.int 500) ∧
    (tempoBothProj.setTempo (281 / 2)).firstValue tempoCoarseId
      = some (.int 140) := by
  have h := tempo_set_writes_truncated tempoBothProj (281 / 2)
  refine ⟨?_, ?_, ?_⟩
  · rw [h.1 rfl]
    norm_num [pyInt]
  · rw [h.2.1 rfl]
    norm_num [pyInt]
  · rw [h.2.2 rfl]
    norm_num

/-- Claim C7 (confirmed): a stored FLVersion string 20.8.3.2567 reads as the
components (20, 8, 3, 2567); setting a tuple with fewer than 3 or more than
4 components raises `ExpectedValue` and writes nothing; setting a
4-component tuple writes the dot-joined string to the FLVersion event and,
when the FLBuild event is present, its 4th component to that event. -/
theorem version_parse_and_set (p : Project) :
    (p.firstValue flVersionId
        = some (.str (codes ['2', '0', '.', '8', '.', '3', '.', '2', '5', '6', '7'])) →
      p.version = .ok ⟨20, 8, 3, some 2567⟩) ∧
    (∀ parts : List ℤ, p.present flVersionId = true →
      parts.length < 3 ∨ 4 < parts.length →
      p.setVersion parts = (.error .expectedValue, p)) ∧
    (∀ a b c d : ℤ, p.present flVersionId = true →
      (p.setVersion [a, b, c, d]).1 = .ok () ∧
      (p.setVersion [a, b, c, d]).2.firstValue flVersionId
        = some (.str (versionString [a, b, c, d])) ∧
      (p.present flBuildId = true →
        (p.setVersion [a, b, c, d]).2.firstValue flBuildId
          = some (.int d))) := by
  refine ⟨?_, ?_, ?_⟩
  · intro h
    simp [Project.version, h]
    rfl
  · intro parts hp hlen
    exact setVersion_badLength_present p parts hp hlen
  · intro a b c d hp
    unfold Project.setVersion
    rw [if_pos hp]
    refine ⟨rfl, ?_, ?_⟩
    · rw [Project.firstValue_writeIfPresent_ne _ (by decide),
        Project.firstValue_setFirst_self]
      obtain ⟨w, hw⟩ := (p.present_true_iff flVersionId).mp hp
      rw [hw]
      rfl
    · intro hb
      rw [Project.firstValue_writeIfPresent_self _ _ _
        (by rw [Project.present_setFirst]; exact hb)]

/-- Witness for C7 at a concrete project holding FLVersion and FLBuild. -/
theorem version_parse_and_set_witness :
    versionProj.version = .ok ⟨20, 8, 3, some 2567⟩ ∧
    versionProj.setVersion [1, 2] = (.error .expectedValue, versionProj) ∧
    (versionProj.setVersion [21, 0, 3, 3000]).1 = .ok () ∧
    (versionProj.setVersion [21, 0, 3, 3000]).2.firstValue flVersionId
      = some (.str (versionString [21, 0, 3, 3000])) ∧
    (versionProj.setVersion [21, 0, 3, 3000]).2.firstValue flBuildId
      = some (.int 3000) := by
  have h := version_parse_and_set versionProj
  exact ⟨h.1 rfl, h.2.1 [1, 2] rfl (by decide), (h.2.2 21 0 3 3000 rfl).1,
    (h.2.2 21 0 3 3000 rfl).2.1, (h.2.2 21 0 3 3000 rfl).2.2 rfl⟩

/-- Claim C8 (confirmed): setting `ppq` to a value outside `VALID_PPQS`
raises `ExpectedValue` and leaves the stored ppq (indeed the whole state)
unchanged; setting a value in the set succeeds and a subsequent read returns
it. -/
theorem ppq_set_domain (p : Project) :
    (∀ v : ℤ, v ∉ VALID_PPQS → p.setPpq v = (.error .expectedValue, p)) ∧
    ∀ v : ℤ, v ∈ VALID_PPQS →
      p.setPpq v = (.ok (), { p with ppq := v }) ∧ (p.setPpq v).2.ppq = v := by
  constructor
  · intro v hv
    unfold Project.setPpq
    rw [if_neg hv]
  · intro v hv
    unfold Project.setPpq
    rw [if_pos hv]
    exact ⟨rfl, rfl⟩

/-- Witness for C8 at the claim's example values 100 and 96. -/
theorem ppq_set_domain_witness :
    emptyProj.setPpq 100 = (.error .expectedValue, emptyProj) ∧
    emptyProj.setPpq 96 = (.ok (), { emptyProj with ppq := 96 }) ∧
    (emptyProj.setPpq 96).2.ppq = 96 := by
  have h := ppq_set_domain emptyProj
  exact ⟨h.1 100 (by decide), (h.2 96 (by decide)).1, (h.2 96 (by decide)).2⟩

/-- Claim C9 (confirmed): when a Project setter rejects a value outside its
documented domain — a version tuple with an invalid component count, a ppq
outside the allowed set, a negative channel count — the event sequence and
the keyword state are exactly as before the call: each such check precedes
every write. -/
theorem setters_domain_error_state_unchanged (p : Project) :
    (∀ parts : List ℤ, parts.length < 3 ∨ 4 < parts.length →
      (p.setVersion parts).2 = p ∧ ∃ e, (p.setVersion parts).1 = .error e) ∧
    (∀ v : ℤ, v ∉ VALID_PPQS → p.setPpq v = (.error .expectedValue, p)) ∧
    (∀ c : ℤ, c < 0 → p.setChannelCount c = (.error .invalidValue, p)) := by
  refine ⟨?_, ?_, ?_⟩
  · intro parts hlen
    by_cases hp : p.present flVersionId = true
    · rw [setVersion_badLength_present p parts hp hlen]
      exact ⟨rfl, ⟨_, rfl⟩⟩
    · rw [setVersion_absent p parts hp]
      exact ⟨rfl, ⟨_, rfl⟩⟩
  · intro v hv
    unfold Project.setPpq
    rw [if_neg hv]
  · intro c hc
    unfold Project.setChannelCount
    rw [if_pos hc]

/-- Witness for C9: the three rejected writes at a concrete project. -/
theorem setters_domain_error_state_unchanged_witness :
    (versionProj.setVersion [1, 2]).2 = versionProj ∧
    versionProj.setPpq 100 = (.error .expectedValue, versionProj) ∧
    versionProj.setChannelCount (-1) = (.error .invalidValue, versionProj) := by
  have h := setters_domain_error_state_unchanged versionProj
  exact ⟨(h.1 [1, 2] (by decide)).1, h.2.1 100 (by decide),
    h.2.2 (-1) (by decide)⟩

/-- Claim C10 (confirmed): with no FLVersion event, reading `version` raises
a plain `KeyError` from `self._events[ProjectID.FLVersion]` — not
`PropertyCannotBeSet` and not `None` — while the optional properties
`created_on`, `data_path` and `licensee` read as `None` when their backing
event is absent. -/
theorem version_absent_raises_keyerror (p : Project)
    (hv : p.firstValue flVersionId = none) :
    p.version = .error .keyError ∧
    (p.firstValue timestampId = none → p.created_on = .ok none) ∧
    (p.firstValue dataPathId = none → p.data_path = .ok none) ∧
    (p.firstValue licenseeId = none → p.licensee = .ok none) := by
  refine ⟨?_, ?_, ?_, ?_⟩
  · simp [Project.version, hv]
  · intro h
    simp [Project.created_on, h]
  · intro h
    simp [Project.data_path, h]
  · intro h
    simp [Project.licensee, h]

/-- Witness for C10 at the empty project. -/
theorem version_absent_raises_keyerror_witness :
    emptyProj.version = .error .keyError ∧
    emptyProj.created_on = .ok none ∧
    emptyProj.data_path = .ok none ∧
    emptyProj.licensee = .ok none := by
  have h := version_absent_raises_keyerror emptyProj rfl
  exact ⟨h.1, h.2.1 rfl, h.2.2.1 rfl, h.2.2.2 rfl⟩

end PyFLP
